import Mathlib

/-!
Shallow embedding of the NistChemPy client library core: request
configuration, search engine, compound records with lazy secondary
fetches, spectra and gas-chromatography parsing.  The Python modules
of the package are not shipped with the documentation snapshot, so the
definitions below are modelled from the design specification; network
interaction is represented by explicit server oracles.
-/

namespace NistChemPy

/-- Modelled from the spec: the request-configuration value
(`nistchempy.RequestConfig`, absent from the snapshot) with three
recognized options: inter-request delay in seconds, maximum attempts
per request, and passthrough transport options (`kwargs`), here an
association list from option name to numeric value. -/
structure RequestConfig where
  delay : ℚ
  max_attempts : ℕ
  kwargs : List (String × ℚ)
deriving DecidableEq

/-- Modelled from the spec: the default request configuration — delay 0,
a single attempt, and a 30-second timeout as the only transport option. -/
def defaultRequestConfig : RequestConfig :=
  { delay := 0, max_attempts := 1, kwargs := [("timeout", 30)] }

/-- Modelled from the spec: operations that take no explicit configuration
substitute the default one. -/
def resolveConfig : Option RequestConfig → RequestConfig
  | none => defaultRequestConfig
  | some cfg => cfg

/-- Modelled from the spec: the seven search types of the search engine. -/
inductive SearchType where
  | name
  | inchi
  | cas
  | formula
  | structure_exact
  | structure_sub
  | id
deriving DecidableEq

/-- Modelled from the spec: `nistchempy.NistSearchParameters` — the units
flag plus the formula-specific flags and the has-property filters, all
translated verbatim into query-string parameters. -/
structure SearchParameters where
  use_SI : Bool
  match_isotopes : Bool
  allow_other : Bool
  allow_extra : Bool
  no_ion : Bool
  cTG : Bool
  cTC : Bool
  cTP : Bool
  cTR : Bool
  cIE : Bool
  cIC : Bool
  cIR : Bool
  cTZ : Bool
  cMS : Bool
  cUV : Bool
  cGC : Bool
  cES : Bool
  cDI : Bool
  cSO : Bool
deriving DecidableEq

/-- Modelled from the spec: default search parameters — SI units, every
other flag unset. -/
def defaultSearchParameters : SearchParameters :=
  { use_SI := true, match_isotopes := false, allow_other := false
    allow_extra := false, no_ion := false, cTG := false, cTC := false
    cTP := false, cTR := false, cIE := false, cIC := false, cIR := false
    cTZ := false, cMS := false, cUV := false, cGC := false, cES := false
    cDI := false, cSO := false }

/-- Whether the search type is the chemical-formula search. -/
def isFormulaSearch : SearchType → Bool
  | SearchType.formula => true
  | _ => false

/-- Modelled from the spec: the server reads the formula-specific flags
(isotope matching, allow-other, allow-extra, exclude-ions) only for
formula queries; for every other search type those flags are accepted by
the client but ignored server-side, so the effective parameters of a
non-formula request clear them. -/
def effectiveParams (t : SearchType) (p : SearchParameters) : SearchParameters :=
  if isFormulaSearch t then p
  else { p with match_isotopes := false, allow_other := false
                allow_extra := false, no_ion := false }

/-- Modelled from the spec: the server's hard cap on results of a single
search, an a-priori constant. -/
def MAX_COUNT : ℕ := 400

/-- Modelled from the spec: the three shapes of a successfully retrieved
search-response page — a no-compounds-found body, a single compound's
detail page (the server short-circuits single-hit searches), or a
results listing. -/
inductive SearchPage where
  | noResults
  | singleCompound (compound_id : String)
  | listing (ids : List String)
deriving DecidableEq

/-- Modelled from the spec: `nistchempy.NistSearch` — the search result
object holding the request configuration it was run with, the success
flag, the `lost` truncation flag, and the found compound identifiers. -/
structure NistSearch where
  _request_config : RequestConfig
  success : Bool
  lost : Bool
  compound_ids : List String
deriving DecidableEq

/-- First successful outcome among attempts `0 … n-1` of a fallible
request, `none` when every attempt fails — the bounded retry loop of the
request layer. -/
def tryAttempts {α : Type} (f : ℕ → Option α) : ℕ → Option α
  | 0 => none
  | n + 1 =>
    match tryAttempts f n with
    | some r => some r
    | none => f n

/-- Modelled from the spec: interpretation of a retrieved search page.
No-compounds-found gives a successful empty result; a single compound
detail page gives a one-element result with `lost = false`; a results
listing is truncated exactly when its count equals the fixed cap. -/
def interpretSearchPage (cfg : RequestConfig) : SearchPage → NistSearch
  | SearchPage.noResults =>
      { _request_config := cfg, success := true, lost := false, compound_ids := [] }
  | SearchPage.singleCompound i =>
      { _request_config := cfg, success := true, lost := false, compound_ids := [i] }
  | SearchPage.listing ids =>
      { _request_config := cfg, success := true
        lost := ids.length == MAX_COUNT, compound_ids := ids }

/-- Modelled from the spec: the type tag of a spectrum — IR, THz, MS
(electron-ionization mass spectrum) or UV/Vis. -/
inductive SpecType where
  | IR
  | TZ
  | MS
  | UV
deriving DecidableEq

/-- Modelled from the spec: `nistchempy.compound.Spectrum` — a spectrum
belongs to exactly one compound (back-reference by identifier), carries
its type tag, its zero-based index among spectra of that type for that
compound, and the raw JDX-formatted text block. -/
structure Spectrum where
  compound_id : String
  spec_type : SpecType
  spec_idx : ℕ
  jdx_text : String
deriving DecidableEq

/-- A parsed table cell of a gas-chromatography table: numeric where
parseable, text otherwise. -/
inductive CellValue where
  | num (q : ℚ)
  | text (s : String)
deriving DecidableEq

/-- Digit-list accumulator for the decimal parser; fails on any
non-digit character. -/
def parseDigits : List Char → ℕ → Option ℕ
  | [], acc => some acc
  | c :: rest, acc =>
      if c.isDigit then parseDigits rest (10 * acc + (c.toNat - 48)) else none

/-- Split a character list at the first decimal point, if any. -/
def splitAtDot : List Char → List Char × Option (List Char)
  | [] => ([], none)
  | c :: rest =>
      if c = '.' then ([], some rest)
      else
        let p := splitAtDot rest
        (c :: p.1, p.2)

/-- Modelled from the spec: parse of a decimal literal (optional sign,
integer part, optional fractional part) into a rational; anything else
is not numeric. -/
def parseDecimal (s : String) : Option ℚ :=
  let cs := s.toList
  let signed : Bool × List Char :=
    match cs with
    | '-' :: rest => (true, rest)
    | _ => (false, cs)
  match splitAtDot signed.2 with
  | (ip, none) =>
      if ip.isEmpty then none
      else (parseDigits ip 0).map
        (fun n => if signed.1 then -(n : ℚ) else (n : ℚ))
  | (ip, some fp) =>
      if ip.isEmpty && fp.isEmpty then none
      else
        match parseDigits ip 0, parseDigits fp 0 with
        | some a, some b =>
            let v : ℚ := (a : ℚ) + (b : ℚ) / (10 : ℚ) ^ fp.length
            some (if signed.1 then -v else v)
        | _, _ => none

/-- Modelled from the spec: a table cell parses as numeric where
parseable and as text otherwise; in particular an empty cell becomes the
empty string, never a sentinel number. -/
def parseCell (s : String) : CellValue :=
  match parseDecimal s with
  | some q => CellValue.num q
  | none => CellValue.text s

/-- Modelled from the spec: one raw table of a gas-chromatography page —
per-column header texts and rows of raw cell strings. -/
structure ChromTable where
  colHeaders : List String
  rows : List (List String)
deriving DecidableEq

/-- Modelled from the spec: one section of a gas-chromatography page — a
section header text followed by its tables. -/
structure ChromSection where
  header : String
  tables : List ChromTable
deriving DecidableEq

/-- Modelled from the spec: `nistchempy.compound.Chromatogram` — belongs
to one compound and carries the three-part classification key
(retention-index type, column polarity, temperature regime) plus the
typed tabular data. -/
structure Chromatogram where
  compound_id : String
  ri_type : String
  column_type : String
  temp_regime : String
  data : List (List CellValue)
deriving DecidableEq

/-- Splits a character list on a separator character; always returns at
least one (possibly empty) chunk. -/
def splitOnChar (sep : Char) : List Char → List (List Char)
  | [] => [[]]
  | c :: rest =>
      let r := splitOnChar sep rest
      if c = sep then [] :: r
      else
        match r with
        | [] => [[c]]
        | h :: t => (c :: h) :: t

/-- Drops leading space characters. -/
def trimLeadingSpaces : List Char → List Char
  | [] => []
  | c :: rest => if c = ' ' then trimLeadingSpaces rest else c :: rest

/-- The comma-separated components of a section header text, with
leading spaces removed. -/
def headerParts (header : String) : List String :=
  (splitOnChar ',' header.toList).map (fun cs => String.mk (trimLeadingSpaces cs))

/-- Modelled from the spec: the retention-index type is the first
comma-separated component of the section header text. -/
def riTypeOf (header : String) : String :=
  (headerParts header).headD ""

/-- Modelled from the spec: the column polarity is the second
comma-separated component of the section header text. -/
def polarityOf (header : String) : String :=
  ((headerParts header).drop 1).headD ""

/-- Modelled from the spec: the temperature regime is read from the
per-column header texts — a fixed-temperature column marks an isothermal
run, a rise-rate column a temperature ramp, anything else a custom
temperature program. -/
def tempRegimeOf (colHeaders : List String) : String :=
  if colHeaders.contains "Temperature (C)" then "isothermal"
  else if colHeaders.contains "Temperature rise rate (K/min)" then "temperature ramp"
  else "custom temperature program"

/-- Modelled from the spec: a table section is classified into the
three-part key combined from the section header text and the per-column
header text, and the table is parsed row-wise into typed cells. -/
def mkChromatogram (cid : String) (header : String) (tbl : ChromTable) : Chromatogram :=
  { compound_id := cid
    ri_type := riTypeOf header
    column_type := polarityOf header
    temp_regime := tempRegimeOf tbl.colHeaders
    data := tbl.rows.map (fun row => row.map parseCell) }

/-- Modelled from the spec: `parseChromatographyPage` — every table of
every section becomes one classified Chromatogram, in page order. -/
def parseChromatographyPage (cid : String) (secs : List ChromSection) : List Chromatogram :=
  (secs.map (fun sec => sec.tables.map (mkChromatogram cid sec.header))).flatten

/-- Modelled from the spec: the fields of a parsed compound page — the
eagerly extracted basic properties and the four reference-URL
categories. -/
structure CompoundPage where
  ID : String
  name : String
  synonyms : List String
  formula : String
  mol_weight : Option ℚ
  inchi : Option String
  inchi_key : Option String
  cas_rn : Option String
  mol_refs : List (String × String)
  data_refs : List (String × String)
  nist_public_refs : List (String × String)
  nist_subscription_refs : List (String × String)
deriving DecidableEq

/-- Modelled from the spec: `nistchempy.compound.NistCompound` — basic
fields populated eagerly at construction, heavy fields (MOL blocks,
spectra lists, chromatography list) populated only by explicit fetch. -/
structure NistCompound where
  _request_config : RequestConfig
  ID : String
  name : String
  synonyms : List String
  formula : String
  mol_weight : Option ℚ
  inchi : Option String
  inchi_key : Option String
  cas_rn : Option String
  mol_refs : List (String × String)
  data_refs : List (String × String)
  nist_public_refs : List (String × String)
  nist_subscription_refs : List (String × String)
  mol2D : Option String
  mol3D : Option String
  ir_specs : List Spectrum
  thz_specs : List Spectrum
  ms_specs : List Spectrum
  uv_specs : List Spectrum
  gas_chromat : List Chromatogram
deriving DecidableEq

/-- Modelled from the spec: construction of a compound record from a
parsed compound page — basic fields are copied synchronously, every
derived/heavy field starts empty. -/
def initCompound (cfg : RequestConfig) (p : CompoundPage) : NistCompound :=
  { _request_config := cfg, ID := p.ID, name := p.name
    synonyms := p.synonyms, formula := p.formula
    mol_weight := p.mol_weight, inchi := p.inchi
    inchi_key := p.inchi_key, cas_rn := p.cas_rn
    mol_refs := p.mol_refs, data_refs := p.data_refs
    nist_public_refs := p.nist_public_refs
    nist_subscription_refs := p.nist_subscription_refs
    mol2D := none, mol3D := none
    ir_specs := [], thz_specs := [], ms_specs := [], uv_specs := []
    gas_chromat := [] }

/-- Modelled from the spec: the remote server as an oracle — per-attempt
search responses and, keyed by the request configuration used for the
call, compound pages, MOL-file blocks, spectra JDX texts and
gas-chromatography pages. -/
structure NistServer where
  search : SearchType → String → SearchParameters → ℕ → Option SearchPage
  page : RequestConfig → String → Option CompoundPage
  molfile2D : RequestConfig → String → Option String
  molfile3D : RequestConfig → String → Option String
  spectra : RequestConfig → String → SpecType → List String
  chrom : RequestConfig → String → List ChromSection

/-- Modelled from the spec: `nistchempy.run_search` — retries the
transport up to `max_attempts` times; exhausted attempts give a failed
result value (success false, no identifiers) rather than an exception, a
retrieved page is interpreted into the result. -/
def run_search (srv : NistServer) (cfg : RequestConfig) (t : SearchType)
    (ident : String) (p : SearchParameters) : NistSearch :=
  match tryAttempts (srv.search t ident (effectiveParams t p)) cfg.max_attempts with
  | none =>
      { _request_config := cfg, success := false, lost := false, compound_ids := [] }
  | some page => interpretSearchPage cfg page

/-- Modelled from the spec: `run_search` with an optional configuration;
callers supplying none get the default configuration. -/
def run_search_api (srv : NistServer) (cfg? : Option RequestConfig) (t : SearchType)
    (ident : String) (p : SearchParameters) : NistSearch :=
  run_search srv (resolveConfig cfg?) t ident p

/-- Modelled from the spec: `NistSearch.load_found_compounds` — each
found identifier's page is fetched with the search's own request
configuration and initialized into a compound record; identifiers whose
page cannot be retrieved are skipped. -/
def load_found_compounds (srv : NistServer) (s : NistSearch) : List NistCompound :=
  s.compound_ids.filterMap
    (fun i => (srv.page s._request_config i).map (initCompound s._request_config))

/-- Modelled from the spec: `NistCompound.get_mol2D` — re-fetches the 2D
MOL block with the record's current request configuration and overwrites
the `mol2D` field. -/
def get_mol2D (srv : NistServer) (X : NistCompound) : NistCompound :=
  { X with mol2D := srv.molfile2D X._request_config X.ID }

/-- Modelled from the spec: `NistCompound.get_mol3D` — re-fetches the 3D
MOL block with the record's current request configuration and overwrites
the `mol3D` field. -/
def get_mol3D (srv : NistServer) (X : NistCompound) : NistCompound :=
  { X with mol3D := srv.molfile3D X._request_config X.ID }

/-- Modelled from the spec: `NistCompound.get_molfiles` — both MOL-file
fetches in one call. -/
def get_molfiles (srv : NistServer) (X : NistCompound) : NistCompound :=
  get_mol3D srv (get_mol2D srv X)

/-- Builds Spectrum objects from fetched JDX text blocks, numbering them
with consecutive indices starting from `k`. -/
def mkSpectra (cid : String) (t : SpecType) : ℕ → List String → List Spectrum
  | _, [] => []
  | k, x :: xs =>
      { compound_id := cid, spec_type := t, spec_idx := k, jdx_text := x } ::
        mkSpectra cid t (k + 1) xs

/-- The spectra list of the record that holds spectra of the given type. -/
def specsOf (t : SpecType) (X : NistCompound) : List Spectrum :=
  match t with
  | SpecType.IR => X.ir_specs
  | SpecType.TZ => X.thz_specs
  | SpecType.MS => X.ms_specs
  | SpecType.UV => X.uv_specs

/-- Overwrites the spectra list of the given type on the record. -/
def setSpecs (t : SpecType) (l : List Spectrum) (X : NistCompound) : NistCompound :=
  match t with
  | SpecType.IR => { X with ir_specs := l }
  | SpecType.TZ => { X with thz_specs := l }
  | SpecType.MS => { X with ms_specs := l }
  | SpecType.UV => { X with uv_specs := l }

/-- Modelled from the spec: `NistCompound.get_spectra` — fetches every
spectrum of the given type with the record's current request
configuration, tags each with the compound, the type and a zero-based
index, and overwrites the corresponding field. -/
def get_spectra (srv : NistServer) (t : SpecType) (X : NistCompound) : NistCompound :=
  setSpecs t (mkSpectra X.ID t 0 (srv.spectra X._request_config X.ID t)) X

/-- Modelled from the spec: `NistCompound.get_all_spectra` — the four
per-type spectra fetches in one call. -/
def get_all_spectra (srv : NistServer) (X : NistCompound) : NistCompound :=
  get_spectra srv SpecType.UV
    (get_spectra srv SpecType.MS
      (get_spectra srv SpecType.TZ
        (get_spectra srv SpecType.IR X)))

/-- Modelled from the spec: `NistCompound.get_gas_chromatography` —
fetches the chromatography page with the record's current request
configuration, parses and classifies its tables, and overwrites the
`gas_chromat` field. -/
def get_gas_chromatography (srv : NistServer) (X : NistCompound) : NistCompound :=
  { X with gas_chromat :=
      parseChromatographyPage X.ID (srv.chrom X._request_config X.ID) }

/-- The three identifier shapes recognized by the resolution helper. -/
inductive IdKind where
  | nistId
  | casRn
  | inchiStr
deriving DecidableEq

/-- Modelled from the spec: CAS-RN-shaped strings are non-empty
digit-dash patterns containing a dash. -/
def isCasLike (s : String) : Bool :=
  decide (0 < s.length)
    && s.toList.all (fun c => c.isDigit || c = '-')
    && s.toList.contains '-'

/-- Modelled from the spec: dispatch of the resolution helper — InChI
strings are recognized by their prefix, CAS registry numbers by the
digit-dash pattern, anything else is treated as a raw NIST ID. -/
def classifyIdentifier (s : String) : IdKind :=
  if "InChI=".toList.isPrefixOf s.toList then IdKind.inchiStr
  else if isCasLike s then IdKind.casRn
  else IdKind.nistId

/-- Modelled from the spec: `nistchempy.get_compound` — raw NIST IDs are
fetched directly; CAS- and InChI-shaped identifiers are routed through
the search engine first, and `none` is returned both when zero matches
are found and when more than one match is found, with the ambiguous case
represented identically to the not-found case.  The helper is total:
no failure path raises. -/
def get_compound (srv : NistServer) (cfg : RequestConfig) (ident : String) :
    Option NistCompound :=
  match classifyIdentifier ident with
  | IdKind.nistId => (srv.page cfg ident).map (initCompound cfg)
  | IdKind.casRn =>
      match (run_search srv cfg SearchType.cas ident defaultSearchParameters).compound_ids with
      | [i] => (srv.page cfg i).map (initCompound cfg)
      | _ => none
  | IdKind.inchiStr =>
      match (run_search srv cfg SearchType.inchi ident defaultSearchParameters).compound_ids with
      | [i] => (srv.page cfg i).map (initCompound cfg)
      | _ => none

/-- Modelled from the spec: `get_compound` with an optional
configuration; callers supplying none get the default configuration. -/
def get_compound_api (srv : NistServer) (cfg? : Option RequestConfig)
    (ident : String) : Option NistCompound :=
  get_compound srv (resolveConfig cfg?) ident

/-- A concrete compound page used to instantiate the theorems. -/
def samplePage : CompoundPage :=
  { ID := "C120127", name := "Anthracene"
    synonyms := ["Anthracin", "Green Oil"]
    formula := "C14H10"
    mol_weight := some (178 : ℚ)
    inchi := some "InChI=1S/C14H10"
    inchi_key := some "MWPLVEDNUUSJAV-UHFFFAOYSA-N"
    cas_rn := some "120-12-7"
    mol_refs := [("mol2D", "u2"), ("mol3D", "u3")]
    data_refs := [("cMS", "um")]
    nist_public_refs := []
    nist_subscription_refs := [] }

/-- A concrete gas-chromatography table used to instantiate the
theorems: one isothermal table with a numeric, an empty and a textual
cell. -/
def sampleTable : ChromTable :=
  { colHeaders := ["Column type", "Temperature (C)", "I"]
    rows := [["Packed", "160.", "1804."], ["Capillary", "", "OV-1"]] }

/-- A concrete gas-chromatography section used to instantiate the
theorems. -/
def sampleSection : ChromSection :=
  { header := "Kovats RI, non-polar column", tables := [sampleTable] }

/-- A concrete server oracle used to instantiate the theorems: every
search succeeds with a two-element listing, every page loads, and the
compound has exactly one mass spectrum. -/
def testServer : NistServer :=
  { search := fun _ _ _ _ => some (SearchPage.listing ["C120127", "C85018"])
    page := fun _ i => some { samplePage with ID := i }
    molfile2D := fun _ _ => some "MOL2D"
    molfile3D := fun _ _ => some "MOL3D"
    spectra := fun _ _ t =>
      match t with
      | SpecType.MS => ["JDXMS"]
      | _ => []
    chrom := fun _ _ => [sampleSection] }

/-- A concrete server oracle whose transport always fails. -/
def failServer : NistServer :=
  { search := fun _ _ _ _ => none
    page := fun _ _ => none
    molfile2D := fun _ _ => none
    molfile3D := fun _ _ => none
    spectra := fun _ _ _ => []
    chrom := fun _ _ => [] }

/-- A concrete server oracle whose searches succeed but match nothing. -/
def emptySearchServer : NistServer :=
  { failServer with search := fun _ _ _ _ => some SearchPage.noResults }

/-- A concrete search result used to instantiate the theorems. -/
def sampleSearch : NistSearch :=
  run_search testServer defaultRequestConfig SearchType.name "anthracene"
    defaultSearchParameters

/-- A concrete compound record used to instantiate the theorems. -/
def sampleCompound : NistCompound :=
  initCompound defaultRequestConfig samplePage

/-- The first compound produced by loading the compounds found by the
concrete search. -/
def loadedX : NistCompound :=
  initCompound sampleSearch._request_config { samplePage with ID := "C120127" }

/-- A second concrete request configuration, distinct from the default,
used to instantiate the configuration-propagation theorem. -/
def cfg2 : RequestConfig :=
  { delay := 1, max_attempts := 3, kwargs := [("timeout", 5)] }

/-- The chromatogram parsed from the concrete gas-chromatography
section. -/
def sampleChrom : Chromatogram :=
  mkChromatogram "C120127" sampleSection.header sampleTable

theorem tryAttempts_eq_none {α : Type} (f : ℕ → Option α)
    (h : ∀ n, f n = none) : ∀ k, tryAttempts f k = none := by
  intro k
  induction k with
  | zero => rfl
  | succ n ih => simp [tryAttempts, ih, h n]

theorem mkSpectra_length (cid : String) (t : SpecType) :
    ∀ (k : ℕ) (texts : List String),
      (mkSpectra cid t k texts).length = texts.length := by
  intro k texts
  induction texts generalizing k with
  | nil => rfl
  | cons x xs ih => simp [mkSpectra, ih]

theorem mkSpectra_getElem? (cid : String) (t : SpecType) :
    ∀ (texts : List String) (k i : ℕ), i < texts.length →
      ∃ txt, (mkSpectra cid t k texts)[i]? =
        some { compound_id := cid, spec_type := t, spec_idx := k + i
               jdx_text := txt } := by
  intro texts
  induction texts with
  | nil => intro k i h; exact absurd h (by simp)
  | cons x xs ih =>
      intro k i h
      cases i with
      | zero => exact ⟨x, by simp [mkSpectra]⟩
      | succ j =>
          obtain ⟨txt, htxt⟩ := ih (k + 1) j (Nat.lt_of_succ_lt_succ h)
          refine ⟨txt, ?_⟩
          have hidx : k + 1 + j = k + (j + 1) := by omega
          rw [hidx] at htxt
          simpa [mkSpectra] using htxt

theorem specsOf_get_spectra (srv : NistServer) (t : SpecType) (X : NistCompound) :
    specsOf t (get_spectra srv t X) =
      mkSpectra X.ID t 0 (srv.spectra X._request_config X.ID t) := by
  cases t <;> rfl





/-- C1: for every successful search, the `lost` flag is false whenever
the number of returned identifiers is strictly less than 400 and true
whenever it equals the cap, the cap being the a-priori constant 400
(`MAX_COUNT`), never recomputed per request. -/
theorem search_lost_iff_cap (srv : NistServer) (cfg : RequestConfig)
    (t : SearchType) (ident : String) (p : SearchParameters)
    (h : (run_search srv cfg t ident p).success = true) :
    ((run_search srv cfg t ident p).compound_ids.length < MAX_COUNT →
      (run_search srv cfg t ident p).lost = false) ∧
    ((run_search srv cfg t ident p).compound_ids.length = MAX_COUNT →
      (run_search srv cfg t ident p).lost = true) ∧
    MAX_COUNT = 400 := by
  have key : ∀ pg : SearchPage,
      ((interpretSearchPage cfg pg).compound_ids.length < MAX_COUNT →
        (interpretSearchPage cfg pg).lost = false) ∧
      ((interpretSearchPage cfg pg).compound_ids.length = MAX_COUNT →
        (interpretSearchPage cfg pg).lost = true) := by
    intro pg
    cases pg with
    | noResults =>
        refine ⟨fun _ => rfl, fun hc => ?_⟩
        simp [interpretSearchPage, MAX_COUNT] at hc
    | singleCompound i =>
        refine ⟨fun _ => rfl, fun hc => ?_⟩
        simp [interpretSearchPage, MAX_COUNT] at hc
    | listing ids =>
        refine ⟨fun hlt => ?_, fun heq => ?_⟩
        · simp only [interpretSearchPage] at hlt ⊢
          simp only [beq_eq_false_iff_ne, ne_eq]
          exact Nat.ne_of_lt hlt
        · simp only [interpretSearchPage] at heq ⊢
          simp [heq]
  unfold run_search at h ⊢
  rcases hp : tryAttempts (srv.search t ident (effectiveParams t p))
      cfg.max_attempts with _ | page
  · rw [hp] at h
    simp at h
  · exact ⟨(key page).1, (key page).2, rfl⟩

/-- Witness for C1: the concrete search succeeds with two identifiers,
so its `lost` flag is false below the cap of 400. -/
theorem search_lost_iff_cap_witness :
    sampleSearch.success = true ∧
    ((sampleSearch.compound_ids.length < MAX_COUNT →
       sampleSearch.lost = false) ∧
     (sampleSearch.compound_ids.length = MAX_COUNT →
       sampleSearch.lost = true) ∧
     MAX_COUNT = 400) :=
  ⟨rfl, search_lost_iff_cap testServer defaultRequestConfig SearchType.name
    "anthracene" defaultSearchParameters rfl⟩

/-- C3: a search whose transport fails on every attempt (non-2xx or
connection error until the attempts are exhausted) returns the failed
result value — success false and no identifiers — rather than raising;
`run_search` is a total function into `NistSearch`. -/
theorem search_transport_failure (srv : NistServer) (cfg : RequestConfig)
    (t : SearchType) (ident : String) (p : SearchParameters)
    (h : ∀ n, srv.search t ident (effectiveParams t p) n = none) :
    run_search srv cfg t ident p =
      { _request_config := cfg, success := false, lost := false
        compound_ids := [] } := by
  unfold run_search
  rw [tryAttempts_eq_none _ h cfg.max_attempts]

/-- Witness for C3 at the always-failing concrete server. -/
theorem search_transport_failure_witness :
    (∀ n, failServer.search SearchType.formula "C6H?O?"
      (effectiveParams SearchType.formula defaultSearchParameters) n = none) ∧
    run_search failServer defaultRequestConfig SearchType.formula "C6H?O?"
        defaultSearchParameters =
      { _request_config := defaultRequestConfig, success := false
        lost := false, compound_ids := [] } :=
  ⟨fun _ => rfl,
   search_transport_failure failServer defaultRequestConfig
     SearchType.formula "C6H?O?" defaultSearchParameters (fun _ => rfl)⟩

/-- C8: a name, CAS or InChI search run with parameters in which only
the formula-specific flags (isotope matching, allow-other, allow-extra,
exclude-ions) differ from the defaults gives the same result as the
search with default parameters — the formula-only flags do not affect
non-formula searches, and the search completes (total function). -/
theorem formula_flags_ignored (srv : NistServer) (cfg : RequestConfig)
    (ident : String) (a b c d : Bool) (t : SearchType)
    (h : t = SearchType.name ∨ t = SearchType.cas ∨ t = SearchType.inchi) :
    run_search srv cfg t ident
      { defaultSearchParameters with
        match_isotopes := a, allow_other := b, allow_extra := c, no_ion := d } =
    run_search srv cfg t ident defaultSearchParameters := by
  rcases h with h | h | h <;> subst h <;> rfl

/-- Witness for C8: a concrete CAS search with all four formula-only
flags raised equals the same search with default parameters. -/
theorem formula_flags_ignored_witness :
    (SearchType.cas = SearchType.name ∨ SearchType.cas = SearchType.cas ∨
      SearchType.cas = SearchType.inchi) ∧
    run_search testServer defaultRequestConfig SearchType.cas "7783-90-6"
      { defaultSearchParameters with
        match_isotopes := true, allow_other := true, allow_extra := true
        no_ion := true } =
    run_search testServer defaultRequestConfig SearchType.cas "7783-90-6"
      defaultSearchParameters :=
  ⟨Or.inr (Or.inl rfl),
   formula_flags_ignored testServer defaultRequestConfig "7783-90-6"
     true true true true SearchType.cas (Or.inr (Or.inl rfl))⟩

/-- C9: the default request configuration has inter-request delay 0,
one attempt per request, and exactly the 30-second timeout as
passthrough transport option; every operation taking no explicit
configuration (the optional-configuration API entry points) uses it. -/
theorem default_config_spec :
    defaultRequestConfig.delay = 0 ∧
    defaultRequestConfig.max_attempts = 1 ∧
    defaultRequestConfig.kwargs = [("timeout", 30)] ∧
    (∀ srv t ident p, run_search_api srv none t ident p =
      run_search srv defaultRequestConfig t ident p) ∧
    (∀ srv ident, get_compound_api srv none ident =
      get_compound srv defaultRequestConfig ident) :=
  ⟨rfl, rfl, rfl, fun _ _ _ _ => rfl, fun _ _ => rfl⟩

/-- C2: the resolution helper returns `none` — and, being a total
function into `Option NistCompound`, raises nothing — when the
identifier matches zero compounds (a direct NIST-ID fetch that finds no
page, or a CAS search with zero matches) and when an InChI search
matches more than one compound; the ambiguous-InChI outcome is the very
same value `none` as the not-found outcome. -/
theorem get_compound_null_cases (srv : NistServer) (cfg : RequestConfig)
    (ident : String) :
    (classifyIdentifier ident = IdKind.nistId → srv.page cfg ident = none →
      get_compound srv cfg ident = none) ∧
    (classifyIdentifier ident = IdKind.casRn →
      (run_search srv cfg SearchType.cas ident
        defaultSearchParameters).compound_ids = [] →
      get_compound srv cfg ident = none) ∧
    (classifyIdentifier ident = IdKind.inchiStr →
      2 ≤ (run_search srv cfg SearchType.inchi ident
        defaultSearchParameters).compound_ids.length →
      get_compound srv cfg ident = none) := by
  refine ⟨fun hk hp => ?_, fun hk hs => ?_, fun hk hs => ?_⟩
  · unfold get_compound
    rw [hk, hp]
    rfl
  · unfold get_compound
    rw [hk, hs]
  · unfold get_compound
    rw [hk]
    rcases hids : (run_search srv cfg SearchType.inchi ident
        defaultSearchParameters).compound_ids with _ | ⟨x, tail⟩
    · rfl
    · cases tail with
      | nil =>
          rw [hids] at hs
          simp at hs
      | cons y rest => rfl

/-- Witness for C2: a CAS number matching zero compounds resolves to
`none`, and an InChI matching two compounds resolves to the identical
value `none`. -/
theorem get_compound_null_cases_witness :
    (classifyIdentifier "50-00-0" = IdKind.casRn) ∧
    ((run_search emptySearchServer defaultRequestConfig SearchType.cas
        "50-00-0" defaultSearchParameters).compound_ids = []) ∧
    get_compound emptySearchServer defaultRequestConfig "50-00-0" = none ∧
    (classifyIdentifier "InChI=1S/C4H7Br3" = IdKind.inchiStr) ∧
    (2 ≤ (run_search testServer defaultRequestConfig SearchType.inchi
        "InChI=1S/C4H7Br3" defaultSearchParameters).compound_ids.length) ∧
    get_compound testServer defaultRequestConfig "InChI=1S/C4H7Br3" = none :=
  ⟨by decide, rfl,
   (get_compound_null_cases emptySearchServer defaultRequestConfig
      "50-00-0").2.1 (by decide) rfl,
   by decide, by decide,
   (get_compound_null_cases testServer defaultRequestConfig
      "InChI=1S/C4H7Br3").2.2 (by decide) (by decide)⟩

/-- C4: every secondary fetch (2D MOL, 3D MOL, per-type spectra, all
spectra, gas chromatography) overwrites its target field, so repeating
the same fetch against unchanged server data leaves the whole record
exactly as after one call — nothing is merged or duplicated. -/
theorem secondary_fetch_overwrites (srv : NistServer) (X : NistCompound) :
    get_mol2D srv (get_mol2D srv X) = get_mol2D srv X ∧
    get_mol3D srv (get_mol3D srv X) = get_mol3D srv X ∧
    get_molfiles srv (get_molfiles srv X) = get_molfiles srv X ∧
    (∀ t, get_spectra srv t (get_spectra srv t X) = get_spectra srv t X) ∧
    get_all_spectra srv (get_all_spectra srv X) = get_all_spectra srv X ∧
    get_gas_chromatography srv (get_gas_chromatography srv X) =
      get_gas_chromatography srv X := by
  refine ⟨rfl, rfl, rfl, fun t => ?_, rfl, rfl⟩
  cases t <;> rfl

/-- C5: construction populates every basic field directly from the
parsed compound page while every derived/heavy field (MOL blocks, the
four spectra collections, the chromatography list) starts empty. -/
theorem init_populates_basic_fields_only (cfg : RequestConfig) (p : CompoundPage) :
    (initCompound cfg p).ID = p.ID ∧
    (initCompound cfg p).name = p.name ∧
    (initCompound cfg p).synonyms = p.synonyms ∧
    (initCompound cfg p).formula = p.formula ∧
    (initCompound cfg p).mol_weight = p.mol_weight ∧
    (initCompound cfg p).inchi = p.inchi ∧
    (initCompound cfg p).inchi_key = p.inchi_key ∧
    (initCompound cfg p).cas_rn = p.cas_rn ∧
    (initCompound cfg p).mol2D = none ∧
    (initCompound cfg p).mol3D = none ∧
    (initCompound cfg p).ir_specs = [] ∧
    (initCompound cfg p).thz_specs = [] ∧
    (initCompound cfg p).ms_specs = [] ∧
    (initCompound cfg p).uv_specs = [] ∧
    (initCompound cfg p).gas_chromat = [] :=
  ⟨rfl, rfl, rfl, rfl, rfl, rfl, rfl, rfl, rfl, rfl, rfl, rfl, rfl, rfl, rfl⟩

/-- C6: every chromatogram produced from a parsed chromatography page
carries the three-part classification key combined from its section
header text (retention-index type, column polarity) and its per-column
header texts (temperature regime), together with the row-wise cell
parse of its table; a cell parses as numeric exactly when the decimal
parse succeeds and as text otherwise, an empty cell becoming the empty
string, never a sentinel number. -/
theorem chromatography_classification (cid : String)
    (secs : List ChromSection) (c : Chromatogram)
    (h : c ∈ parseChromatographyPage cid secs) :
    (∃ sec ∈ secs, ∃ tbl ∈ sec.tables,
      c.compound_id = cid ∧
      c.ri_type = riTypeOf sec.header ∧
      c.column_type = polarityOf sec.header ∧
      c.temp_regime = tempRegimeOf tbl.colHeaders ∧
      c.data = tbl.rows.map (fun row => row.map parseCell)) ∧
    parseCell "" = CellValue.text "" ∧
    (∀ s q, parseDecimal s = some q → parseCell s = CellValue.num q) ∧
    (∀ s, parseDecimal s = none → parseCell s = CellValue.text s) := by
  refine ⟨?_, rfl, fun s q hq => ?_, fun s hn => ?_⟩
  · unfold parseChromatographyPage at h
    rw [List.mem_flatten] at h
    obtain ⟨l, hl, hc⟩ := h
    rw [List.mem_map] at hl
    obtain ⟨sec, hsec, rfl⟩ := hl
    rw [List.mem_map] at hc
    obtain ⟨tbl, htbl, rfl⟩ := hc
    exact ⟨sec, hsec, tbl, htbl, rfl, rfl, rfl, rfl, rfl⟩
  · unfold parseCell
    rw [hq]
  · unfold parseCell
    rw [hn]

/-- Witness for C6: the concrete one-section page produces the concrete
chromatogram with its combined key and parsed cells, and concrete
empty/textual cells parse to text values. -/
theorem chromatography_classification_witness :
    (sampleChrom ∈ parseChromatographyPage "C120127" [sampleSection]) ∧
    (∃ sec ∈ [sampleSection], ∃ tbl ∈ sec.tables,
      sampleChrom.compound_id = "C120127" ∧
      sampleChrom.ri_type = riTypeOf sec.header ∧
      sampleChrom.column_type = polarityOf sec.header ∧
      sampleChrom.temp_regime = tempRegimeOf tbl.colHeaders ∧
      sampleChrom.data = tbl.rows.map (fun row => row.map parseCell)) ∧
    parseCell "" = CellValue.text "" ∧
    parseCell "OV-1" = CellValue.text "OV-1" :=
  ⟨List.Mem.head _,
   (chromatography_classification "C120127" [sampleSection] sampleChrom
      (List.Mem.head _)).1,
   (chromatography_classification "C120127" [sampleSection] sampleChrom
      (List.Mem.head _)).2.1,
   (chromatography_classification "C120127" [sampleSection] sampleChrom
      (List.Mem.head _)).2.2.2 "OV-1" rfl⟩

/-- C7: a per-type spectra fetch tags every spectrum with the owning
compound's identifier and the requested type and numbers them with
consecutive zero-based indices, one entry per server spectrum — so a
compound with exactly one MS entry yields a one-element list whose
element has index 0. -/
theorem spectra_typed_indexing (srv : NistServer) (X : NistCompound)
    (t : SpecType) :
    (specsOf t (get_spectra srv t X)).length =
      (srv.spectra X._request_config X.ID t).length ∧
    ∀ i, i < (specsOf t (get_spectra srv t X)).length →
      ∃ sp, (specsOf t (get_spectra srv t X))[i]? = some sp ∧
        sp.spec_idx = i ∧ sp.spec_type = t ∧ sp.compound_id = X.ID := by
  rw [specsOf_get_spectra]
  constructor
  · exact mkSpectra_length X.ID t 0 _
  · intro i hi
    rw [mkSpectra_length] at hi
    obtain ⟨txt, htxt⟩ := mkSpectra_getElem? X.ID t _ 0 i hi
    refine ⟨{ compound_id := X.ID, spec_type := t, spec_idx := i
              jdx_text := txt }, ?_, rfl, rfl, rfl⟩
    simpa using htxt

/-- Witness for C7: the concrete compound has exactly one MS entry on
the concrete server; fetching yields a one-element list whose element
has index 0, type MS and the owning compound's identifier. -/
theorem spectra_typed_indexing_witness :
    (specsOf SpecType.MS
      (get_spectra testServer SpecType.MS sampleCompound)).length = 1 ∧
    (0 < (specsOf SpecType.MS
      (get_spectra testServer SpecType.MS sampleCompound)).length) ∧
    ∃ sp, (specsOf SpecType.MS
        (get_spectra testServer SpecType.MS sampleCompound))[0]? = some sp ∧
      sp.spec_idx = 0 ∧ sp.spec_type = SpecType.MS ∧
      sp.compound_id = sampleCompound.ID :=
  ⟨rfl, by decide,
   (spectra_typed_indexing testServer sampleCompound SpecType.MS).2 0
     (by decide)⟩

/-- C10: every compound produced by loading the compounds found by a
search holds that search's request configuration, and each secondary
fetch method reads the record's current configuration for its network
call — so changing the record's configuration afterwards changes which
oracle response later fetches observe. -/
theorem config_propagation (srv : NistServer) (s : NistSearch)
    (X : NistCompound) (h : X ∈ load_found_compounds srv s) :
    X._request_config = s._request_config ∧
    ∀ cfg : RequestConfig,
      (get_mol2D srv { X with _request_config := cfg }).mol2D =
        srv.molfile2D cfg X.ID ∧
      (get_mol3D srv { X with _request_config := cfg }).mol3D =
        srv.molfile3D cfg X.ID ∧
      (∀ t, specsOf t (get_spectra srv t { X with _request_config := cfg }) =
        mkSpectra X.ID t 0 (srv.spectra cfg X.ID t)) ∧
      (get_gas_chromatography srv
          { X with _request_config := cfg }).gas_chromat =
        parseChromatographyPage X.ID (srv.chrom cfg X.ID) := by
  constructor
  · unfold load_found_compounds at h
    rw [List.mem_filterMap] at h
    obtain ⟨i, hi, hmap⟩ := h
    rw [Option.map_eq_some'] at hmap
    obtain ⟨pg, hpg, hX⟩ := hmap
    rw [← hX]
    rfl
  · intro cfg
    exact ⟨rfl, rfl,
      fun t => specsOf_get_spectra srv t { X with _request_config := cfg },
      rfl⟩

/-- Witness for C10: the first compound loaded from the concrete search
holds the search's configuration, and fetches after overwriting the
configuration use the overwritten one. -/
theorem config_propagation_witness :
    (loadedX ∈ load_found_compounds testServer sampleSearch) ∧
    loadedX._request_config = sampleSearch._request_config ∧
    (get_mol2D testServer { loadedX with _request_config := cfg2 }).mol2D =
      testServer.molfile2D cfg2 loadedX.ID ∧
    (get_gas_chromatography testServer
        { loadedX with _request_config := cfg2 }).gas_chromat =
      parseChromatographyPage loadedX.ID (testServer.chrom cfg2 loadedX.ID) :=
  ⟨List.Mem.head _,
   (config_propagation testServer sampleSearch loadedX (List.Mem.head _)).1,
   ((config_propagation testServer sampleSearch loadedX
      (List.Mem.head _)).2 cfg2).1,
   ((config_propagation testServer sampleSearch loadedX
      (List.Mem.head _)).2 cfg2).2.2.2⟩

end NistChemPy
